import Mathlib

/-!
Verification of the feature-engineering stage of the contact analysis
pipeline (src/contact_analysis_pipeline.py, class ContactDataAnalyzer).

The Python source is shallowly embedded below.  Machine-level concerns do
not arise: the pipeline works on Python ints and strings, modelled by Int,
Nat and String.  Pandas column operations are per-row maps, modelled as
pure Lean functions over an explicit row type; nullable columns are Option
types (pandas NaN / NaT equals none).  Raised exceptions are modelled with
Except.
-/

/-- A raw contact row as extracted by connect_and_extract (source lines
68-74): id, name, phone, category, email, notes, created_at, updated_at.
Per the schema, name and phone are non-null text; category, email, notes
and the two timestamps are nullable.  Timestamps arrive as text and are
parsed later by pd.to_datetime. -/
structure ContactRow where
  id : Nat
  name : String
  phone : String
  category : Option String
  email : Option String
  notes : Option String
  created_at : Option String
  updated_at : Option String
deriving DecidableEq

/-- A calendar timestamp, the result of a successful pd.to_datetime parse. -/
structure Timestamp where
  year : Int
  month : Nat
  day : Nat
  hour : Nat
  minute : Nat
  second : Nat
deriving DecidableEq

/-- A character of the regex word class \w (ASCII range): letter, digit or
underscore. -/
def isWordChar (c : Char) : Bool :=
  c.isAlpha || c.isDigit || c == '_'

/-- Lowercase a string characterwise (models str.lower / case=False
matching on ASCII data). -/
def strLower (s : String) : String :=
  String.mk (s.toList.map Char.toLower)

/-- Characters of a string with surrounding whitespace removed. -/
def trimChars (cs : List Char) : List Char :=
  ((cs.dropWhile Char.isWhitespace).reverse.dropWhile Char.isWhitespace).reverse

/-- str.strip(): the string with surrounding whitespace removed. -/
def strTrim (s : String) : String :=
  String.mk (trimChars s.toList)

/-- Split a character list at every occurrence of the separator character
(models str.split(sep) for a one-character separator).  The accumulator
holds the current field reversed. -/
def splitOnCharAux (sep : Char) : List Char → List Char → List (List Char)
  | [], acc => [acc.reverse]
  | c :: cs, acc =>
      if c == sep then acc.reverse :: splitOnCharAux sep cs []
      else splitOnCharAux sep cs (c :: acc)

/-- Whitespace-delimited words of a character list (models str.split()
with no argument: runs of whitespace separate tokens, empties dropped). -/
def wordsAux : List Char → List Char → List (List Char)
  | [], acc => if acc.isEmpty then [] else [acc.reverse]
  | c :: cs, acc =>
      if c.isWhitespace then
        if acc.isEmpty then wordsAux cs []
        else acc.reverse :: wordsAux cs []
      else wordsAux cs (c :: acc)

/-- Number of whitespace-delimited words, as computed by
.str.split().str.len() on source lines 100 and 144. -/
def wordCount (s : String) : Nat :=
  (wordsAux s.toList []).length

/-- Does the pattern occur at the head of the text?  (Used to model regex
and substring containment searches.) -/
def startsWithChars : List Char → List Char → Bool
  | [], _ => true
  | _ :: _, [] => false
  | p :: ps, c :: cs => p == c && startsWithChars ps cs

/-- Substring containment (models .str.contains with a literal pattern). -/
def strContainsSub (s pat : String) : Bool :=
  (List.range (s.toList.length + 1)).any fun i =>
    startsWithChars pat.toList (s.toList.drop i)

/-- Is the character at position j (out of range counts as non-word) a
word character? -/
def wordAt (cs : List Char) (j : Nat) : Bool :=
  isWordChar (cs.getD j ' ')

/-- The regex word-boundary anchor at position j: the word-ness of the
character before j differs from the word-ness of the character at j (string
edges count as non-word). -/
def boundaryAt (cs : List Char) (j : Nat) : Bool :=
  (if j == 0 then false else wordAt cs (j - 1)) != wordAt cs j

/-- The alternation of the has_title regex on source line 103, lowercased
because the search runs with case=False. -/
def titleTokens : List String :=
  ["dr", "mr", "mrs", "ms", "prof", "eng", "sir", "lady"]

/-- Source lines 101-105: .str.contains of the regex with a leading word
boundary, an alternation over the title tokens and an OPTIONAL trailing
period — there is no trailing word-boundary anchor, so a token may be the
beginning of a longer word.  The optional period never constrains whether
a match exists, so it does not appear here. -/
def has_title_match (name : String) : Bool :=
  let cs := (strLower name).toList
  (List.range (cs.length + 1)).any fun i =>
    boundaryAt cs i &&
      titleTokens.any fun t => startsWithChars t.toList (cs.drop i)

/-- The alternation of the is_company regex on source line 108 (matched
case-sensitively). -/
def companyTokens : List String :=
  ["Inc", "Ltd", "Corp", "LLC", "GmbH", "Co.", "Company"]

/-- Source lines 106-110: .str.contains of a case-sensitive regex with a
word boundary on both sides of the alternation. -/
def is_company_match (name : String) : Bool :=
  let cs := name.toList
  (List.range (cs.length + 1)).any fun i =>
    boundaryAt cs i &&
      companyTokens.any fun t =>
        startsWithChars t.toList (cs.drop i) &&
          boundaryAt cs (i + t.toList.length)

/-- The fixed free-provider set of source lines 131-138. -/
def freeDomains : List String :=
  ["gmail.com", "yahoo.com", "hotmail.com", "outlook.com", "icloud.com",
   "proton.me"]

/-- Days from 1970-01-01 to the given civil date (Gregorian calendar,
standard era decomposition). -/
def daysFromCivil (y : Int) (m d : Nat) : Int :=
  let yAdj : Int := if m ≤ 2 then y - 1 else y
  let era : Int := Int.fdiv yAdj 400
  let yoe : Int := yAdj - era * 400
  let mp : Int := Int.emod ((m : Int) + 9) 12
  let doy : Int := Int.fdiv (153 * mp + 2) 5 + (d : Int) - 1
  let doe : Int := yoe * 365 + Int.fdiv yoe 4 - Int.fdiv yoe 100 + doy
  era * 146097 + doe - 719468

/-- Day of week with Monday = 0 … Sunday = 6 (pandas dt.dayofweek
convention; 1970-01-01 was a Thursday, hence the offset 3). -/
def dayOfWeek (t : Timestamp) : Nat :=
  Int.toNat (Int.emod (daysFromCivil t.year t.month t.day + 3) 7)

/-- Seconds from the epoch to the timestamp. -/
def epochSeconds (t : Timestamp) : Int :=
  daysFromCivil t.year t.month t.day * 86400
    + ((t.hour * 3600 + t.minute * 60 + t.second : Nat) : Int)

/-- Is the Gregorian year a leap year? -/
def isLeapYear (y : Int) : Bool :=
  (Int.emod y 4 == 0 && Int.emod y 100 != 0) || Int.emod y 400 == 0

/-- Number of days in the given month of the given year. -/
def daysInMonth (y : Int) (m : Nat) : Nat :=
  if m == 2 then (if isLeapYear y then 29 else 28)
  else if m == 4 || m == 6 || m == 9 || m == 11 then 30
  else 31

/-- A fixed-width run of digits read as a number; none when the width or a
character is wrong. -/
def parseNatFixed (cs : List Char) (len : Nat) : Option Nat :=
  if cs.length == len && cs.all Char.isDigit then
    some (cs.foldl (fun a c => a * 10 + (c.toNat - 48)) 0)
  else none

/-- The YYYY-MM-DD part of an ISO timestamp, validated against the
calendar. -/
def parseDatePart (cs : List Char) : Option (Int × Nat × Nat) :=
  match splitOnCharAux '-' cs [] with
  | [ys, ms, ds] => do
      let y ← parseNatFixed ys 4
      let mo ← parseNatFixed ms 2
      let da ← parseNatFixed ds 2
      if 1 ≤ mo && mo ≤ 12 && 1 ≤ da && da ≤ daysInMonth (y : Int) mo then
        some ((y : Int), mo, da)
      else none
  | _ => none

/-- The HH:MM:SS part of an ISO timestamp. -/
def parseTimePart (cs : List Char) : Option (Nat × Nat × Nat) :=
  match splitOnCharAux ':' cs [] with
  | [hs, ms, ss] => do
      let h ← parseNatFixed hs 2
      let mi ← parseNatFixed ms 2
      let se ← parseNatFixed ss 2
      if h ≤ 23 && mi ≤ 59 && se ≤ 59 then some (h, mi, se) else none
  | _ => none

/-- Parse one timestamp string: ISO date, optionally followed by a T- or
space-separated time of day.  Anything else fails. -/
def parseTimestamp (s : String) : Option Timestamp :=
  let cs := trimChars s.toList
  let parts :=
    if (splitOnCharAux 'T' cs []).length == 2 then splitOnCharAux 'T' cs []
    else splitOnCharAux ' ' cs []
  match parts with
  | [d] => (parseDatePart d).map fun (y, mo, da) =>
      { year := y, month := mo, day := da, hour := 0, minute := 0, second := 0 }
  | [d, t] => do
      let (y, mo, da) ← parseDatePart d
      let (h, mi, se) ← parseTimePart t
      some { year := y, month := mo, day := da, hour := h, minute := mi, second := se }
  | _ => none

/-- Models pd.to_datetime(column, errors="coerce") on one cell (source
lines 153-154), restricted to ISO-format inputs: a missing value or any
string that does not parse coerces to NaT (none); no exception is ever
raised. -/
def toDatetimeCoerce (v : Option String) : Option Timestamp :=
  v.bind parseTimestamp

/-- One enriched row: the derived columns assigned on source lines 98-168.
Columns that pandas computes from nullable data are Option-typed; columns
produced through .astype(int) are plain Nat because that conversion can
never yield a missing value.  is_weekend and was_recently_updated are
Option-typed (a pandas column may in general hold NaN) but the code always
fills them with an integer — see the theorems on claims C5 and C6. -/
structure EnrichedRow where
  name : String
  name_length : Nat
  name_words : Nat
  has_title : Nat
  is_company : Nat
  phone_clean : String
  phone_digit_count : Nat
  is_international : Nat
  area_code : Option String
  has_extension : Nat
  has_email : Nat
  email_domain : Option String
  email_is_free : Nat
  has_notes : Nat
  notes_length : Nat
  notes_word_count : Nat
  notes_has_url : Nat
  created_at : Option Timestamp
  updated_at : Option Timestamp
  created_year : Option Int
  created_month : Option Nat
  created_dayofweek : Option Nat
  created_hour : Option Nat
  is_weekend : Option Nat
  days_since_creation : Option Int
  was_recently_updated : Option Nat
  category : String
deriving DecidableEq

/-- The per-row part of clean_and_engineer_features, source lines 98-168:
every derived column except category_encoded (which needs the whole batch)
and contact_quality_score (assigned on lines 175-180, after the statement
that raises — see claim C2).  The parameter now is the instant read by
datetime.now() on line 161, in epoch seconds. -/
def enrichRow (r : ContactRow) (now : Int) : EnrichedRow :=
  let name := strTrim r.name
  let phone_clean := String.mk (r.phone.toList.filter Char.isDigit)
  let created := toDatetimeCoerce r.created_at
  let updated := toDatetimeCoerce r.updated_at
  let dow : Option Nat := created.map dayOfWeek
  let email_domain : Option String := r.email.map fun e =>
    strLower (String.mk ((splitOnCharAux '@' e.toList []).getLastD e.toList))
  { name := name
    name_length := name.toList.length
    name_words := wordCount name
    has_title := if has_title_match name then 1 else 0
    is_company := if is_company_match name then 1 else 0
    phone_clean := phone_clean
    phone_digit_count := phone_clean.toList.length
    is_international := if 10 < phone_clean.toList.length then 1 else 0
    area_code :=
      if 10 ≤ phone_clean.toList.length then
        some (String.mk (phone_clean.toList.take 3))
      else none
    has_extension :=
      if (strLower r.phone).toList.any (fun c => c == 'x' || c == '#') then 1
      else 0
    has_email := if r.email.isSome then 1 else 0
    email_domain := email_domain
    email_is_free :=
      match email_domain with
      | some d => if freeDomains.contains d then 1 else 0
      | none => 0
    has_notes := if r.notes.isSome then 1 else 0
    notes_length := (r.notes.getD "").toList.length
    notes_word_count := wordCount (r.notes.getD "")
    notes_has_url :=
      if strContainsSub (strLower (r.notes.getD "")) "http://"
          || strContainsSub (strLower (r.notes.getD "")) "https://" then 1
      else 0
    created_at := created
    updated_at := updated
    created_year := created.map fun t => t.year
    created_month := created.map fun t => t.month
    created_dayofweek := dow
    created_hour := created.map fun t => t.hour
    is_weekend := some (match dow with
      | some d => if d == 5 || d == 6 then 1 else 0
      | none => 0)
    days_since_creation := created.map fun t => Int.fdiv (now - epochSeconds t) 86400
    was_recently_updated := some (match created with
      | some c =>
          match updated with
          | some u => if 86400 < epochSeconds u - epochSeconds c then 1 else 0
          | none => 0
      | none => 0)
    category := strTrim (r.category.getD "Other") }

/-- Row-wise enrichment of the whole frame (the column assignments act on
every row; no row is dropped or reordered). -/
def enrichRows (rows : List ContactRow) (now : Int) : List EnrichedRow :=
  rows.map fun r => enrichRow r now

/-- Source lines 175-180: the composite quality score expression.  The
last term is (~ email_is_free).astype(int): on the int64 0/1 column
produced on line 139, ~ is the BITWISE complement, so the term evaluates
to -1 - email_is_free (that is, -1 when the flag is 0 and -2 when it is
1), not to a logical negation.  This statement sits after the statement
that raises on line 171, so the pipeline never actually reaches it. -/
def contact_quality_score (e : EnrichedRow) : Int :=
  (e.has_email : Int) * 3 + (e.has_notes : Int) * 2
    + (if 50 < e.notes_length then (1 : Int) else 0) * 2
    + (-1 - (e.email_is_free : Int)) * 1

/-- The quality-score formula exactly as the specification states it: the
last term is the LOGICAL negation of the 0/1 flag, contributing 1 - flag. -/
def specQualityScore (e : EnrichedRow) : Int :=
  3 * (e.has_email : Int) + 2 * (e.has_notes : Int)
    + 2 * (if 50 < e.notes_length then (1 : Int) else 0)
    + (1 - (e.email_is_free : Int))

/-- Whole-word title matching as the specification claims it: word
boundary on BOTH sides of the token (the optional trailing period is
itself a non-word character, so it is covered by the right boundary). -/
def specTitleWholeWord (name : String) : Bool :=
  let cs := (strLower name).toList
  (List.range (cs.length + 1)).any fun i =>
    boundaryAt cs i &&
      titleTokens.any fun t =>
        startsWithChars t.toList (cs.drop i) &&
          boundaryAt cs (i + t.toList.length)

/-- The exceptions the analyzer can raise in the modelled fragment. -/
inductive PyError where
  | valueError
  | attributeError
deriving DecidableEq

/-- The mutable attributes of ContactDataAnalyzer touched by the modelled
fragment: self.df (none until extraction succeeds) and
self.category_mapping (source lines 56-57). -/
structure AnalyzerState where
  df : Option (List ContactRow)
  category_mapping : List (String × Nat)
deriving DecidableEq

/-- The analyzer right after __init__ with the given extraction result:
category_mapping starts empty (source line 57). -/
def initAnalyzer (df : Option (List ContactRow)) : AnalyzerState :=
  { df := df, category_mapping := [] }

/-- Source lines 90-183, clean_and_engineer_features.  Lines 91-92 raise
ValueError when self.df is missing or empty.  Otherwise lines 94-169 build
a local enriched frame, and line 171 evaluates self.le.classes_indices_:
the attribute le is never assigned on the instance (__init__ creates only
le_category, line 58), so attribute lookup raises AttributeError before
self.category_mapping (line 170) or self.df (line 182) is assigned.  The
local frame is discarded with the exception. -/
def clean_and_engineer_features (st : AnalyzerState) (now : Int) :
    Except PyError AnalyzerState :=
  match st.df with
  | none => Except.error PyError.valueError
  | some rows =>
      if rows.isEmpty then Except.error PyError.valueError
      else
        let _df := enrichRows rows now
        Except.error PyError.attributeError

/-- The attributes visible on the analyzer after calling
clean_and_engineer_features: on success the updated state, on an exception
the state as it was (the assignments to self occur only after the point
that raises). -/
def stateAfter (st : AnalyzerState) (now : Int) : AnalyzerState :=
  match clean_and_engineer_features st now with
  | Except.ok st2 => st2
  | Except.error _ => st

/-- The 19-column ML feature list of export_datasets, source lines
321-341, in source order. -/
def ml_features : List String :=
  ["name_length", "name_words", "has_title", "is_company",
   "phone_digit_count", "is_international", "has_extension",
   "has_email", "email_is_free",
   "has_notes", "notes_length", "notes_word_count", "notes_has_url",
   "created_month", "created_dayofweek", "created_hour", "is_weekend",
   "contact_quality_score", "category_encoded"]

/-- Modelled from the spec: the order in which section 4.1 enumerates the
derived fields — name features, phone, email, notes, time features, then
the category encoding, then the composite quality score last. -/
def spec41FeatureOrder : List String :=
  ["name_length", "name_words", "has_title", "is_company",
   "phone_clean", "phone_digit_count", "is_international", "area_code",
   "has_extension",
   "has_email", "email_domain", "email_is_free",
   "has_notes", "notes_length", "notes_word_count", "notes_has_url",
   "created_year", "created_month", "created_dayofweek", "created_hour",
   "is_weekend", "days_since_creation", "was_recently_updated",
   "category_encoded", "contact_quality_score"]

/-- The ML columns in the order the claim asserts: the section 4.1
enumeration restricted to the exported 19. -/
def specMlOrder : List String :=
  spec41FeatureOrder.filter fun c => ml_features.contains c

/-- The end-to-end example row of spec section 8. -/
def exRow : ContactRow :=
  { id := 1
    name := " Dr. Jane Doe "
    phone := "+1 (415) 555-0199"
    category := none
    email := some "jane@gmail.com"
    notes := some "Met at conf, see http://x.co"
    created_at := some "2024-01-05T10:00:00"
    updated_at := some "2024-01-07T10:00:00" }

/-- A row with a category but no email and no notes. -/
def rowFriend : ContactRow :=
  { id := 2
    name := "Ann"
    phone := "555-1234"
    category := some "Friends"
    email := none
    notes := none
    created_at := some "2024-01-05T10:00:00"
    updated_at := none }

/-- A row whose created_at does not parse. -/
def rowBadCreated : ContactRow :=
  { id := 3
    name := "Bob"
    phone := "555-1234"
    category := none
    email := none
    notes := none
    created_at := some "not-a-date"
    updated_at := some "2024-01-07T10:00:00" }

/-- A row whose name merely begins with a title token as part of a longer
word. -/
def rowDrive : ContactRow :=
  { id := 4
    name := "Drive"
    phone := ""
    category := none
    email := none
    notes := none
    created_at := none
    updated_at := none }

/-- Epoch seconds of 2024-02-01 00:00:00. -/
def nowFeb : Int := epochSeconds { year := 2024, month := 2, day := 1, hour := 0, minute := 0, second := 0 }

/-- Epoch seconds of 2024-03-01 00:00:00. -/
def nowMar : Int := epochSeconds { year := 2024, month := 3, day := 1, hour := 0, minute := 0, second := 0 }

/-! ## Helper lemmas -/

/-- A pattern that occurs at the head of a text is no longer than the
text. -/
theorem startsWithChars_length (p : List Char) :
    ∀ l, startsWithChars p l = true → p.length ≤ l.length := by
  induction p with
  | nil => intro l _; simp
  | cons a as ih =>
    intro l h
    cases l with
    | nil => simp [startsWithChars] at h
    | cons b bs =>
      simp only [startsWithChars, Bool.and_eq_true] at h
      have := ih bs h.2
      simp only [List.length_cons]
      omega

/-- Every title token is a nonempty string. -/
theorem titleTokens_nonempty : ∀ t ∈ titleTokens, 0 < t.toList.length := by decide

/-! ## Claims -/

/-- Claim C1: the claim says clean_and_engineer_features produces a
bijective category-to-code mapping and returns it as first-class output in
category_mapping.  The code cannot: line 171 reads self.le, an attribute
that is never assigned, so the call raises AttributeError before line 170
assigns self.category_mapping, which therefore stays empty.  This theorem
evaluates the modelled method at a concrete one-row input. -/
theorem C1_category_mapping_not_produced :
    clean_and_engineer_features (initAnalyzer (some [rowFriend])) 0
        = Except.error PyError.attributeError ∧
      (stateAfter (initAnalyzer (some [rowFriend])) 0).category_mapping = [] :=
  ⟨rfl, rfl⟩

/-- Claim C2: on every non-empty input frame, clean_and_engineer_features
raises AttributeError while constructing the category mapping (self.le is
never defined), so self.df is never replaced and self.category_mapping
keeps its value — in particular it stays empty for a freshly initialized
analyzer. -/
theorem C2_le_attribute_error (rows : List ContactRow)
    (mapping : List (String × Nat)) (now : Int) (hne : rows ≠ []) :
    clean_and_engineer_features { df := some rows, category_mapping := mapping } now
        = Except.error PyError.attributeError ∧
      stateAfter { df := some rows, category_mapping := mapping } now
        = { df := some rows, category_mapping := mapping } ∧
      (stateAfter (initAnalyzer (some rows)) now).category_mapping = [] := by
  cases rows with
  | nil => exact absurd rfl hne
  | cons r rs => exact ⟨rfl, rfl, rfl⟩

/-- Witness for C2 at a concrete one-row input. -/
theorem C2_le_attribute_error_inst :
    clean_and_engineer_features { df := some [rowFriend], category_mapping := [] } 0
        = Except.error PyError.attributeError ∧
      stateAfter { df := some [rowFriend], category_mapping := [] } 0
        = { df := some [rowFriend], category_mapping := [] } ∧
      (stateAfter (initAnalyzer (some [rowFriend])) 0).category_mapping = [] :=
  C2_le_attribute_error [rowFriend] [] 0 (List.cons_ne_nil _ _)

/-- Counterexample to claim C3 as stated: for a row with no email and no
notes the quality-score expression of source lines 175-180 evaluates to
-1, while the claimed formula (logical negation in the last term) gives
1.  The last term is a bitwise complement of the int64 flag, not a
logical negation. -/
theorem C3_counterexample_no_email :
    contact_quality_score (enrichRow rowFriend nowFeb) = -1 ∧
      specQualityScore (enrichRow rowFriend nowFeb) = 1 ∧
      contact_quality_score (enrichRow rowFriend nowFeb)
        ≠ specQualityScore (enrichRow rowFriend nowFeb) := by decide

/-- Claim C3 (amended): the composite score equals
3*has_email + 2*has_notes + 2*(notes_length>50) + (-1 - email_is_free) —
the last term is the bitwise complement ~email_is_free of the int64 0/1
flag; in particular for a row with no email (has_email = 0 and
email_is_free = 0) the last term contributes exactly -1, not +1. -/
theorem C3_quality_score_bitwise (r : ContactRow) (now : Int) :
    contact_quality_score (enrichRow r now)
        = 3 * ((enrichRow r now).has_email : Int)
          + 2 * ((enrichRow r now).has_notes : Int)
          + 2 * (if 50 < (enrichRow r now).notes_length then (1 : Int) else 0)
          + (-1 - ((enrichRow r now).email_is_free : Int)) ∧
      (r.email = none →
        contact_quality_score (enrichRow r now)
          = 2 * ((enrichRow r now).has_notes : Int)
            + 2 * (if 50 < (enrichRow r now).notes_length then (1 : Int) else 0)
            - 1) := by
  constructor
  · unfold contact_quality_score; ring
  · intro h
    have h1 : (enrichRow r now).has_email = 0 := by simp [enrichRow, h]
    have h2 : (enrichRow r now).email_is_free = 0 := by simp [enrichRow, h]
    unfold contact_quality_score
    rw [h1, h2]
    push_cast
    ring

/-- Witness for C3 at a concrete no-email row. -/
theorem C3_quality_score_bitwise_inst :
    contact_quality_score (enrichRow rowFriend nowFeb)
        = 2 * ((enrichRow rowFriend nowFeb).has_notes : Int)
          + 2 * (if 50 < (enrichRow rowFriend nowFeb).notes_length then (1 : Int) else 0)
          - 1 :=
  (C3_quality_score_bitwise rowFriend nowFeb).2 rfl

/-- Counterexample to claim C4 as stated: on an empty input frame,
clean_and_engineer_features does not return empty outputs — lines 91-92
raise ValueError. -/
theorem C4_counterexample_empty_raises :
    clean_and_engineer_features (initAnalyzer (some [])) 0
      = Except.error PyError.valueError := rfl

/-- Claim C4 (amended): applied to an empty (or absent) input frame,
clean_and_engineer_features raises ValueError; empty input is treated as
an error by this method (the pipeline driver run() instead returns early,
before calling it, when the extracted frame is empty). -/
theorem C4_empty_input_value_error (st : AnalyzerState) (now : Int)
    (h : st.df = none ∨ st.df = some []) :
    clean_and_engineer_features st now = Except.error PyError.valueError := by
  rcases h with h | h <;> simp [clean_and_engineer_features, h]

/-- Witness for C4 at the freshly initialized analyzer. -/
theorem C4_empty_input_value_error_inst :
    clean_and_engineer_features (initAnalyzer none) 0
      = Except.error PyError.valueError :=
  C4_empty_input_value_error (initAnalyzer none) 0 (Or.inl rfl)

/-- Counterexample to claim C5 as stated: for a row whose created_at does
not parse, is_weekend does not become null — it becomes the integer 0,
because .isin([5, 6]) maps the missing day of week to False and
.astype(int) to 0. -/
theorem C5_counterexample_is_weekend_not_null :
    toDatetimeCoerce rowBadCreated.created_at = none ∧
      (enrichRow rowBadCreated nowFeb).created_dayofweek = none ∧
      (enrichRow rowBadCreated nowFeb).is_weekend = some 0 ∧
      (enrichRow rowBadCreated nowFeb).is_weekend ≠ none := by decide

/-- Claim C5 (amended): when created_at fails to parse, the field and the
derived created_year, created_month, created_dayofweek, created_hour and
days_since_creation become null, but is_weekend and was_recently_updated
become the integer 0 (the comparisons treat the missing value as false);
when updated_at fails to parse, it becomes null and was_recently_updated
becomes 0.  Rows are never dropped (the enrichment maps every row to a
row) and the parse itself coerces instead of raising. -/
theorem C5_parse_failure_nulls (r : ContactRow) (now : Int) :
    (toDatetimeCoerce r.created_at = none →
        (enrichRow r now).created_at = none ∧
        (enrichRow r now).created_year = none ∧
        (enrichRow r now).created_month = none ∧
        (enrichRow r now).created_dayofweek = none ∧
        (enrichRow r now).created_hour = none ∧
        (enrichRow r now).days_since_creation = none ∧
        (enrichRow r now).is_weekend = some 0 ∧
        (enrichRow r now).was_recently_updated = some 0) ∧
      (toDatetimeCoerce r.updated_at = none →
        (enrichRow r now).updated_at = none ∧
        (enrichRow r now).was_recently_updated = some 0) ∧
      ∀ rows : List ContactRow, (enrichRows rows now).length = rows.length := by
  refine ⟨?_, ?_, ?_⟩
  · intro h
    refine ⟨?_, ?_, ?_, ?_, ?_, ?_, ?_, ?_⟩ <;> simp [enrichRow, h]
  · intro h
    refine ⟨?_, ?_⟩
    · simp [enrichRow, h]
    · cases hc : toDatetimeCoerce r.created_at <;> simp [enrichRow, h, hc]
  · intro rows
    simp [enrichRows]

/-- Witness for C5 at a concrete row with an unparseable created_at. -/
theorem C5_parse_failure_nulls_inst :
    (enrichRow rowBadCreated nowFeb).created_at = none ∧
      (enrichRow rowBadCreated nowFeb).created_year = none ∧
      (enrichRow rowBadCreated nowFeb).created_month = none ∧
      (enrichRow rowBadCreated nowFeb).created_dayofweek = none ∧
      (enrichRow rowBadCreated nowFeb).created_hour = none ∧
      (enrichRow rowBadCreated nowFeb).days_since_creation = none ∧
      (enrichRow rowBadCreated nowFeb).is_weekend = some 0 ∧
      (enrichRow rowBadCreated nowFeb).was_recently_updated = some 0 :=
  (C5_parse_failure_nulls rowBadCreated nowFeb).1 (by decide)

/-- Counterexample to claim C6 as stated: for a row with created_at
present and updated_at absent, was_recently_updated is not null — the
comparison of a missing timedelta yields False and .astype(int) yields
the integer 0. -/
theorem C6_counterexample_missing_updated :
    (enrichRow rowFriend nowFeb).updated_at = none ∧
      (enrichRow rowFriend nowFeb).was_recently_updated = some 0 ∧
      (enrichRow rowFriend nowFeb).was_recently_updated ≠ none := by decide

/-- Claim C6 (amended): with both timestamps present,
was_recently_updated = 1 iff updated_at - created_at exceeds one day
(86400 seconds), else 0; with either timestamp absent it is the integer
0, not null. -/
theorem C6_was_recently_updated_rule (r : ContactRow) (now : Int) :
    (∀ c u, toDatetimeCoerce r.created_at = some c →
        toDatetimeCoerce r.updated_at = some u →
        (enrichRow r now).was_recently_updated
          = some (if 86400 < epochSeconds u - epochSeconds c then 1 else 0)) ∧
      (toDatetimeCoerce r.created_at = none ∨ toDatetimeCoerce r.updated_at = none →
        (enrichRow r now).was_recently_updated = some 0) := by
  constructor
  · intro c u hc hu
    simp [enrichRow, hc, hu]
  · intro h
    rcases h with h | h
    · simp [enrichRow, h]
    · cases hc : toDatetimeCoerce r.created_at <;> simp [enrichRow, h, hc]

/-- Witness for C6 at the example row, whose timestamps are two days
apart. -/
theorem C6_was_recently_updated_rule_inst :
    (enrichRow exRow nowFeb).was_recently_updated
      = some (if 86400 <
            epochSeconds { year := 2024, month := 1, day := 7, hour := 10, minute := 0, second := 0 }
              - epochSeconds { year := 2024, month := 1, day := 5, hour := 10, minute := 0, second := 0 }
          then 1 else 0) :=
  (C6_was_recently_updated_rule exRow nowFeb).1 _ _ (by decide) (by decide)

/-- Counterexample to claim C7 as stated: the reference instant is not an
injected parameter — line 161 reads datetime.now() inside the method, so
for a fixed input collection the derived days_since_creation differs
between runs whose ambient clock differs, and the whole enriched row is
not a function of the input alone. -/
theorem C7_counterexample_clock_dependence :
    (enrichRow exRow nowFeb).days_since_creation = some 26 ∧
      (enrichRow exRow nowMar).days_since_creation = some 55 ∧
      enrichRow exRow nowFeb ≠ enrichRow exRow nowMar := by decide

/-- Claim C7 (amended): two runs of the feature engine on the same input
collection under the same ambient system-clock instant produce identical
derived fields — the transformation is a pure function of the rows and
the instant datetime.now() returns; that instant is read inside the
method, not supplied by the caller. -/
theorem C7_determinism_given_clock (rows1 rows2 : List ContactRow)
    (n1 n2 : Int) (hr : rows1 = rows2) (hn : n1 = n2) :
    enrichRows rows1 n1 = enrichRows rows2 n2 := by
  rw [hr, hn]

/-- Witness for C7 at a concrete input and instant. -/
theorem C7_determinism_given_clock_inst :
    enrichRows [exRow] nowFeb = enrichRows [exRow] nowFeb :=
  C7_determinism_given_clock [exRow] [exRow] nowFeb nowFeb rfl rfl

/-- Counterexample to claim C8 as stated: the name Drive contains the
token dr only as the beginning of a longer word, yet has_title = 1,
because the regex on line 103 has no trailing word-boundary anchor; the
whole-word matcher the claim describes rejects it. -/
theorem C8_counterexample_drive :
    (enrichRow rowDrive 0).has_title = 1 ∧
      specTitleWholeWord "Drive" = false := by decide

/-- Claim C8 (amended): has_title = 1 iff the lowercased trimmed name
contains one of the title tokens at a position with a word boundary on
the LEFT only; no right boundary is required, so a token that merely
begins a longer word (such as Drive) still matches. -/
theorem C8_title_left_boundary_only (name : String) :
    has_title_match name = true ↔
      ∃ i t, t ∈ titleTokens ∧
        boundaryAt (strLower name).toList i = true ∧
        startsWithChars t.toList ((strLower name).toList.drop i) = true := by
  simp only [has_title_match, List.any_eq_true, List.mem_range, Bool.and_eq_true]
  constructor
  · rintro ⟨i, _, hb, t, ht, hp⟩
    exact ⟨i, t, ht, hb, hp⟩
  · rintro ⟨i, t, ht, hb, hp⟩
    refine ⟨i, ?_, hb, t, ht, hp⟩
    have h1 := startsWithChars_length t.toList _ hp
    have h2 := titleTokens_nonempty t ht
    simp only [List.length_drop] at h1
    omega

/-- Witness for C8 at the name Drive. -/
theorem C8_title_left_boundary_only_inst :
    has_title_match "Drive" = true ↔
      ∃ i t, t ∈ titleTokens ∧
        boundaryAt (strLower "Drive").toList i = true ∧
        startsWithChars t.toList ((strLower "Drive").toList.drop i) = true :=
  C8_title_left_boundary_only "Drive"

/-- Claim C9: for every row with a null email, the derived fields satisfy
has_email = 0, email_domain is null and email_is_free = 0. -/
theorem C9_null_email_fields (r : ContactRow) (now : Int) (h : r.email = none) :
    (enrichRow r now).has_email = 0 ∧
      (enrichRow r now).email_domain = none ∧
      (enrichRow r now).email_is_free = 0 := by
  refine ⟨?_, ?_, ?_⟩ <;> simp [enrichRow, h]

/-- Witness for C9 at a concrete row without an email. -/
theorem C9_null_email_fields_inst :
    (enrichRow rowFriend nowFeb).has_email = 0 ∧
      (enrichRow rowFriend nowFeb).email_domain = none ∧
      (enrichRow rowFriend nowFeb).email_is_free = 0 :=
  C9_null_email_fields rowFriend nowFeb rfl

/-- Counterexample to claim C10 as stated: the exported ML column list
does not follow the section 4.1 enumeration order — the enumeration puts
the category encoding before the composite quality score (score last),
but the source list ends with contact_quality_score followed by
category_encoded. -/
theorem C10_counterexample_order :
    ml_features ≠ specMlOrder ∧
      ml_features.getLast? = some "category_encoded" ∧
      specMlOrder.getLast? = some "contact_quality_score" := by decide

/-- Claim C10 (amended): the ML-ready dataset has exactly the 19 named
feature columns, without duplicates, in the section 4.1 enumeration order
except that the final two columns are swapped: contact_quality_score
precedes category_encoded, which comes last. -/
theorem C10_ml_columns_amended :
    ml_features.length = 19 ∧ ml_features.Nodup ∧
      ml_features.take 17 = specMlOrder.take 17 ∧
      ml_features.drop 17 = (specMlOrder.drop 17).reverse := by decide
